import Mathlib

/-!
Verification of the TO rotation-schedule generator (`Roles.py`).

Shallow embedding conventions:
* A calendar date is a `Nat`: the number of days since 2024-01-01, which is a
  Monday.  Under this encoding Python's `datetime.weekday()` (Monday = 0,
  Wednesday = 2) is `d % 7`.
* `generate_rotation` stores dates as `%Y-%m-%d` strings which the renderers
  parse back; that round trip is the identity on the date, so the embedding
  keeps the date as a `Nat` throughout.
* The source's `while` loops are embedded as structurally recursive functions
  with an explicit fuel argument chosen provably large enough for the loop to
  run to its exit condition, so that all definitions compute by `rfl`.
* The renderers write to stdout / a text file / a CSV file; the embedding
  returns the ordered sequence of (date, TO 1, TO 2) records each sink emits,
  the CSV renderer additionally returning its header row.
-/

namespace Roles

/-- Python's `str.strip()`: drop leading and trailing whitespace.  (Lean's own
`String.trim` is defined through substring primitives that do not reduce in the
kernel, so the embedding uses this structurally recursive equivalent.) -/
def strip (s : String) : String :=
  ⟨((s.data.dropWhile Char.isWhitespace).reverse.dropWhile Char.isWhitespace).reverse⟩

/-- Python's `str.startswith(p)`, as a prefix test on the character lists. -/
def startswith (s p : String) : Bool := p.data.isPrefixOf s.data

/-- Python's `datetime.weekday()` for this encoding: 0 = Monday, 2 = Wednesday. -/
def weekday (d : Nat) : Nat := d % 7

/-- The `while current_date.weekday() != 2: current_date += timedelta(days=1)`
loop of `generate_rotation` (Roles.py lines 97-99), with fuel.  Fuel 7 always
suffices: a Wednesday occurs within any 7 consecutive days. -/
def seekAux : Nat → Nat → Nat
  | 0, d => d
  | fuel + 1, d => if weekday d = 2 then d else seekAux fuel (d + 1)

/-- The first Wednesday at or after `d` (Roles.py lines 96-99). -/
def firstWednesday (d : Nat) : Nat := seekAux 7 d

/-- The `while current_date < end_date` loop of `generate_rotation`
(Roles.py lines 103-106), with fuel.  Each iteration advances
`current_date` by 7, so any fuel `≥ end_date` suffices. -/
def rotationAux (tos : List String) (end_date : Nat) :
    Nat → Nat → Nat → List (Nat × String)
  | 0, _, _ => []
  | fuel + 1, current_date, to_index =>
    if current_date < end_date then
      (current_date, tos.getD to_index "") ::
        rotationAux tos end_date fuel (current_date + 7) ((to_index + 1) % tos.length)
    else []

/-- `generate_rotation` (Roles.py lines 68-108).  `start_date = none` models the
Python default `None`, resolved to `now` (`datetime.now()`).  Python's raised
`ValueError`s are the `Except.error` branches, carrying the same messages. -/
def generate_rotation (tos : List String) (num_days : Nat)
    (start_date : Option Nat) (now : Nat) : Except String (List (Nat × String)) :=
  if tos.isEmpty then .error "TO list cannot be empty."
  else
    let tos := tos.map strip
    if tos.any (· = "") then .error "TO names cannot be empty strings."
    else
      let start_date := start_date.getD now
      let end_date := start_date + num_days
      .ok (rotationAux tos end_date end_date (firstWednesday start_date) 0)

/-- The record-emitting loop of `print_to_terminal` (Roles.py lines 138-143):
threads `TO_two` through the list, emitting one (date, TO 1, TO 2) record per
assignment. -/
def terminalLoop : String → List (Nat × String) → List (Nat × String × String)
  | _, [] => []
  | TO_two, (date, TO_one) :: rest => (date, TO_one, TO_two) :: terminalLoop TO_one rest

/-- `print_to_terminal` (Roles.py lines 129-143): the ordered records printed to
the terminal, with slot 2 seeded as `tos[-1][1] if len(tos) > 1 else "N/A"`. -/
def print_to_terminal (tos : List (Nat × String)) : List (Nat × String × String) :=
  terminalLoop (if tos.length > 1 then (tos.getLastD (0, "")).2 else "N/A") tos

/-- The record-emitting loop of `print_to_file` (Roles.py lines 121-126),
a separate near-identical copy in the source. -/
def fileLoop : String → List (Nat × String) → List (Nat × String × String)
  | _, [] => []
  | TO_two, (date, TO_one) :: rest => (date, TO_one, TO_two) :: fileLoop TO_one rest

/-- `print_to_file` (Roles.py lines 111-126): the ordered records written to
`TO_Rotation.txt`. -/
def print_to_file (tos : List (Nat × String)) : List (Nat × String × String) :=
  fileLoop (if tos.length > 1 then (tos.getLastD (0, "")).2 else "N/A") tos

/-- The row-emitting loop of `export_to_csv` (Roles.py lines 159-162),
a third near-identical copy in the source. -/
def csvLoop : String → List (Nat × String) → List (Nat × String × String)
  | _, [] => []
  | TO_two, (date, TO_one) :: rest => (date, TO_one, TO_two) :: csvLoop TO_one rest

/-- `export_to_csv` (Roles.py lines 146-162): the header row written by
`writer.writerow(["Date", "TO 1", "TO 2"])` paired with the ordered data rows. -/
def export_to_csv (tos : List (Nat × String)) :
    List String × List (Nat × String × String) :=
  (["Date", "TO 1", "TO 2"],
    csvLoop (if tos.length > 1 then (tos.getLastD (0, "")).2 else "N/A") tos)

/-- The list comprehension of `parse_file` (Roles.py lines 57-61): keep lines
whose strip is non-empty and that do not start with `---`, stripped. -/
def parse_file_lines (lines : List String) : List String :=
  (lines.filter (fun line => strip line != "" && !(startswith line "---"))).map strip

/-- The command-line arguments of `parse_arguments` (Roles.py lines 10-43).
`start_date` models the raw `--start-date` string through the outcome of
`datetime.strptime(s, "%Y-%m-%d")`: `none` = flag absent, `some none` =
malformed string (strptime raises `ValueError`), `some (some d)` = parses to
date `d`. -/
structure Args where
  tos : Option (List String)
  file : Bool
  csv : Bool
  days : Nat
  start_date : Option (Option Nat)

/-- Outcome of one run of the process: its exit status, and whether the final
`print("Done.")` was reached. -/
structure MainResult where
  exitCode : Nat
  donePrinted : Bool
  deriving DecidableEq

/-- The final stage of `main` (Roles.py lines 185-198): call
`generate_rotation` (exit 1 on its `ValueError`), render to the chosen sink,
print "Done.". -/
def mainGenerate (args : Args) (tos : List String) (start_date : Option Nat)
    (today : Nat) : MainResult :=
  match generate_rotation tos args.days start_date today with
  | .error _ => ⟨1, false⟩
  | .ok _ => ⟨0, true⟩

/-- The tail of `main` after the participant list is resolved (Roles.py lines
177-198): parse `--start-date` (exit 1 on a `ValueError` from strptime), then
run the final stage with the resolved start date. -/
def mainAfterInput (args : Args) (tos : List String) (today : Nat) : MainResult :=
  match args.start_date with
  | some none => ⟨1, false⟩
  | none => mainGenerate args tos none today
  | some (some d) => mainGenerate args tos (some d) today

/-- `main` (Roles.py lines 165-198).  `fileLines = none` models a missing
`TO_List.txt` (`parse_file` prints an error and calls `sys.exit(1)`);
`some lines` models its contents.  A bare `return` from `main` is a normal
process exit with status 0 and no "Done." message. -/
def main (args : Args) (fileLines : Option (List String)) (today : Nat) : MainResult :=
  let tos := args.tos.getD []
  if tos.isEmpty then
    match fileLines with
    | none => ⟨1, false⟩
    | some lines =>
      let tos := parse_file_lines lines
      if tos.isEmpty then ⟨0, false⟩
      else mainAfterInput args tos today
  else mainAfterInput args tos today

/-- Input resolution of `main` (Roles.py lines 168-175) succeeds with the list
`tos`: either `--tos` supplied a non-empty list, or no `--tos` was given and the
file's parsed lines are non-empty (proof-side helper). -/
def resolvesTo (args : Args) (fileLines : Option (List String))
    (tos : List String) : Prop :=
  ((args.tos.getD []).isEmpty = false ∧ tos = args.tos.getD [])
  ∨ ((args.tos.getD []).isEmpty = true ∧ ∃ lines, fileLines = some lines ∧
      tos = parse_file_lines lines ∧ tos.isEmpty = false)

/-- Number of iterations the rotation loop performs from `current` up to the
exclusive bound `end_date` in steps of 7 (proof-side helper). -/
def nWeeks (end_date current : Nat) : Nat := (end_date - current + 6) / 7

/-- Closed form of the weekday-seeking loop: it adds the distance from `d` to
the next date whose residue mod 7 is 2. -/
theorem firstWednesday_eq (d : Nat) : firstWednesday d = d + (9 - d % 7) % 7 := by
  have h : d % 7 = 0 ∨ d % 7 = 1 ∨ d % 7 = 2 ∨ d % 7 = 3 ∨ d % 7 = 4 ∨
      d % 7 = 5 ∨ d % 7 = 6 := by omega
  rcases h with h | h | h | h | h | h | h <;>
    simp [firstWednesday, seekAux, weekday, Nat.add_mod, h]

/-- The seek never moves backward. -/
theorem firstWednesday_ge (d : Nat) : d ≤ firstWednesday d := by
  rw [firstWednesday_eq]; omega

/-- The seek lands at most 6 days ahead. -/
theorem firstWednesday_le (d : Nat) : firstWednesday d ≤ d + 6 := by
  rw [firstWednesday_eq]; omega

/-- The seek lands on a Wednesday. -/
theorem firstWednesday_weekday (d : Nat) : weekday (firstWednesday d) = 2 := by
  rw [firstWednesday_eq]; unfold weekday; omega

/-- The seek is minimal: no earlier Wednesday at or after `d`. -/
theorem firstWednesday_min (d e : Nat) (hde : d ≤ e) (he : weekday e = 2) :
    firstWednesday d ≤ e := by
  rw [firstWednesday_eq]; unfold weekday at he; omega

/-- Closed form of the rotation loop, for any sufficient fuel: the `k`-th emitted
pair is `(current + 7k, tos[(idx + k) mod len])`. -/
theorem rotationAux_eq (tos : List String) (e : Nat) :
    ∀ (fuel : Nat) (c : Nat) (idx : Nat), 0 < tos.length → idx < tos.length →
      nWeeks e c ≤ fuel →
      rotationAux tos e fuel c idx =
        (List.range (nWeeks e c)).map
          (fun k => (c + 7 * k, tos.getD ((idx + k) % tos.length) "")) := by
  intro fuel
  induction fuel with
  | zero =>
    intro c idx _ _ hfuel
    have h0 : nWeeks e c = 0 := Nat.le_zero.mp hfuel
    simp [rotationAux, h0]
  | succ fuel ih =>
    intro c idx hlen hidx hfuel
    by_cases hc : c < e
    · have hpos : 1 ≤ nWeeks e c := by unfold nWeeks; omega
      obtain ⟨n, hn⟩ : ∃ n, nWeeks e c = n + 1 := ⟨nWeeks e c - 1, by omega⟩
      have hrec : nWeeks e (c + 7) = n := by unfold nWeeks at hn ⊢; omega
      rw [show rotationAux tos e (fuel + 1) c idx =
            (c, tos.getD idx "") ::
              rotationAux tos e fuel (c + 7) ((idx + 1) % tos.length) from by
        rw [rotationAux, if_pos hc]]
      rw [ih (c + 7) ((idx + 1) % tos.length) hlen (Nat.mod_lt _ hlen) (by omega)]
      rw [hrec, hn, List.range_succ_eq_map, List.map_cons, List.map_map]
      congr 1
      · simp [Nat.mod_eq_of_lt hidx]
      · apply List.map_congr_left
        intro k _
        simp only [Function.comp_apply]
        refine Prod.ext ?_ ?_
        · show c + 7 + 7 * k = c + 7 * (k + 1); omega
        · show tos.getD (((idx + 1) % tos.length + k) % tos.length) "" =
            tos.getD ((idx + (k + 1)) % tos.length) ""
          rw [Nat.mod_add_mod, show idx + 1 + k = idx + (k + 1) from by omega]
    · have h0 : nWeeks e c = 0 := by unfold nWeeks; omega
      rw [show rotationAux tos e (fuel + 1) c idx = [] from by
        rw [rotationAux, if_neg hc]]
      simp [h0]

/-- On a valid input (non-empty, no entry blank after trimming),
`generate_rotation` succeeds and the schedule has the closed form:
`nWeeks` records, the `k`-th dated `firstWednesday start + 7k` and assigned
to the `(k mod len)`-th trimmed participant. -/
theorem generate_rotation_ok (P : List String) (n : Nat) (sd : Option Nat) (now : Nat)
    (hP : P ≠ []) (hb : ∀ p ∈ P, strip p ≠ "") :
    generate_rotation P n sd now =
      .ok ((List.range (nWeeks (sd.getD now + n) (firstWednesday (sd.getD now)))).map
        (fun k => (firstWednesday (sd.getD now) + 7 * k,
          (P.map strip).getD (k % P.length) ""))) := by
  have h1 : P.isEmpty = false := by simp [List.isEmpty_iff, hP]
  have h2 : (P.map strip).any (· = "") = false := by
    simp only [List.any_map, List.any_eq_false, Function.comp_apply]
    intro p hp
    simpa using hb p hp
  have hlen : 0 < (P.map strip).length := by
    simpa using List.length_pos.mpr hP
  have hfuel : nWeeks (sd.getD now + n) (firstWednesday (sd.getD now)) ≤
      sd.getD now + n := by
    have := firstWednesday_ge (sd.getD now)
    unfold nWeeks
    omega
  unfold generate_rotation
  rw [h1]
  simp only [Bool.false_eq_true, if_false, h2]
  rw [rotationAux_eq (P.map strip) (sd.getD now + n) (sd.getD now + n)
    (firstWednesday (sd.getD now)) 0 hlen hlen hfuel]
  simp

/-- A successfully generated schedule has `nWeeks` records. -/
theorem sched_length (P : List String) (n start now : Nat)
    (hP : P ≠ []) (hb : ∀ p ∈ P, strip p ≠ "")
    (sched : List (Nat × String))
    (hgen : generate_rotation P n (some start) now = .ok sched) :
    sched.length = nWeeks (start + n) (firstWednesday start) := by
  rw [generate_rotation_ok P n (some start) now hP hb] at hgen
  injection hgen with h
  subst h
  simp

/-- The `i`-th record of a successfully generated schedule. -/
theorem sched_getD (P : List String) (n start now i : Nat)
    (hP : P ≠ []) (hb : ∀ p ∈ P, strip p ≠ "")
    (sched : List (Nat × String))
    (hgen : generate_rotation P n (some start) now = .ok sched)
    (hi : i < sched.length) :
    sched.getD i (0, "") =
      (firstWednesday start + 7 * i, (P.map strip).getD (i % P.length) "") := by
  rw [generate_rotation_ok P n (some start) now hP hb] at hgen
  injection hgen with h
  subst h
  rw [List.getD_eq_getElem _ _ hi]
  simp at hi ⊢

/-- The rendering loop preserves length. -/
theorem terminalLoop_length (init : String) (l : List (Nat × String)) :
    (terminalLoop init l).length = l.length := by
  induction l generalizing init with
  | nil => rfl
  | cons a rest ih =>
    obtain ⟨date, TO_one⟩ := a
    simp [terminalLoop, ih]

/-- The `i`-th record emitted by the rendering loop: the assignment's date and
participant, with slot 2 the seed for `i = 0` and the previous assignment's
participant otherwise. -/
theorem terminalLoop_getD (l : List (Nat × String)) :
    ∀ (init : String) (i : Nat), i < l.length →
      (terminalLoop init l).getD i (0, "", "") =
        ((l.getD i (0, "")).1, (l.getD i (0, "")).2,
          if i = 0 then init else (l.getD (i - 1) (0, "")).2) := by
  induction l with
  | nil => intro init i h; simp at h
  | cons a rest ih =>
    intro init i h
    obtain ⟨date, TO_one⟩ := a
    cases i with
    | zero => simp [terminalLoop]
    | succ i =>
      rw [show terminalLoop init ((date, TO_one) :: rest) =
        (date, TO_one, init) :: terminalLoop TO_one rest from rfl]
      simp only [List.getD_cons_succ]
      rw [ih TO_one i (by simpa using h)]
      cases i with
      | zero => simp
      | succ j => simp

/-- The three renderers' emitting loops are copies of the same logic. -/
theorem loop_copies_eq (l : List (Nat × String)) :
    ∀ init : String, fileLoop init l = terminalLoop init l ∧
      csvLoop init l = terminalLoop init l := by
  induction l with
  | nil => intro init; exact ⟨rfl, rfl⟩
  | cons a rest ih =>
    intro init
    obtain ⟨date, TO_one⟩ := a
    obtain ⟨h1, h2⟩ := ih TO_one
    simp [fileLoop, csvLoop, terminalLoop, h1, h2]

/-- C1: for every non-empty, blank-free participant list `P`, the participant of
the `i`-th Assignment returned by `generate_rotation` equals
`P[i mod len(P)]` after trimming, for all `i` below the schedule length,
indices starting at 0. -/
theorem C1_assignment_periodic (P : List String) (num_days start now : Nat)
    (hP : P ≠ []) (hb : ∀ p ∈ P, strip p ≠ "")
    (sched : List (Nat × String))
    (hgen : generate_rotation P num_days (some start) now = .ok sched)
    (i : Nat) (hi : i < sched.length) :
    (sched.getD i (0, "")).2 = (P.map strip).getD (i % P.length) "" := by
  rw [sched_getD P num_days start now i hP hb sched hgen hi]

/-- C1 witness. -/
theorem C1_witness :
    (["Alice", "Bob"].getD (1 % 2) "" : String) = "Bob" ∧
    (([(2, "Alice"), (9, "Bob")] : List (Nat × String)).getD 1 (0, "")).2 =
      (["Alice", "Bob"].map strip).getD (1 % ["Alice", "Bob"].length) "" := by
  refine ⟨rfl, ?_⟩
  exact C1_assignment_periodic ["Alice", "Bob"] 14 0 0 (by simp)
    (by decide) [(2, "Alice"), (9, "Bob")] rfl 1 (by simp)

/-- C2: in every schedule returned by `generate_rotation`, consecutive
Assignment dates differ by exactly 7 days, and every Assignment date lies
strictly before `start + window_days` (the end bound is exclusive). -/
theorem C2_cadence_and_bound (P : List String) (num_days start now : Nat)
    (hP : P ≠ []) (hb : ∀ p ∈ P, strip p ≠ "")
    (sched : List (Nat × String))
    (hgen : generate_rotation P num_days (some start) now = .ok sched) :
    (∀ i, i + 1 < sched.length →
      (sched.getD (i + 1) (0, "")).1 = (sched.getD i (0, "")).1 + 7)
    ∧ ∀ i, i < sched.length → (sched.getD i (0, "")).1 < start + num_days := by
  constructor
  · intro i hi
    rw [sched_getD P num_days start now (i + 1) hP hb sched hgen hi,
      sched_getD P num_days start now i hP hb sched hgen (by omega)]
    simp
    omega
  · intro i hi
    rw [sched_getD P num_days start now i hP hb sched hgen hi]
    rw [sched_length P num_days start now hP hb sched hgen] at hi
    have hge := firstWednesday_ge start
    unfold nWeeks at hi
    simp
    omega

/-- C2 witness. -/
theorem C2_witness :
    (([(2, "Alice"), (9, "Bob")] : List (Nat × String)).getD 1 (0, "")).1 =
      (([(2, "Alice"), (9, "Bob")] : List (Nat × String)).getD 0 (0, "")).1 + 7 ∧
    (([(2, "Alice"), (9, "Bob")] : List (Nat × String)).getD 1 (0, "")).1 < 0 + 14 := by
  have h := C2_cadence_and_bound ["Alice", "Bob"] 14 0 0 (by simp)
    (by decide) [(2, "Alice"), (9, "Bob")] rfl
  exact ⟨h.1 0 (by simp), h.2 1 (by simp)⟩

/-- C3: the first Assignment date of a non-empty generated schedule is the
earliest Wednesday greater than or equal to `start`: at or after `start`, on a
Wednesday, minimal among such dates; a `start` already on Wednesday is used
unmodified, and a `start` one day after Wednesday (weekday 3) yields a first
Assignment 6 days later. -/
theorem C3_first_wednesday (P : List String) (num_days start now : Nat)
    (hP : P ≠ []) (hb : ∀ p ∈ P, strip p ≠ "")
    (sched : List (Nat × String))
    (hgen : generate_rotation P num_days (some start) now = .ok sched)
    (hne : sched ≠ []) :
    start ≤ (sched.getD 0 (0, "")).1
    ∧ weekday (sched.getD 0 (0, "")).1 = 2
    ∧ (∀ e, start ≤ e → weekday e = 2 → (sched.getD 0 (0, "")).1 ≤ e)
    ∧ (weekday start = 2 → (sched.getD 0 (0, "")).1 = start)
    ∧ (weekday start = 3 → (sched.getD 0 (0, "")).1 = start + 6) := by
  have hlen : 0 < sched.length := List.length_pos.mpr hne
  rw [sched_getD P num_days start now 0 hP hb sched hgen hlen]
  simp only [Nat.mul_zero, Nat.add_zero]
  refine ⟨firstWednesday_ge start, firstWednesday_weekday start,
    fun e h1 h2 => firstWednesday_min start e h1 h2, ?_, ?_⟩
  · intro h2
    unfold weekday at h2
    rw [firstWednesday_eq]
    omega
  · intro h3
    unfold weekday at h3
    rw [firstWednesday_eq]
    omega

/-- C3 witness. -/
theorem C3_witness :
    0 ≤ (([(2, "Alice"), (9, "Bob")] : List (Nat × String)).getD 0 (0, "")).1 ∧
    weekday (([(2, "Alice"), (9, "Bob")] : List (Nat × String)).getD 0 (0, "")).1 = 2 := by
  have h := C3_first_wednesday ["Alice", "Bob"] 14 0 0 (by simp)
    (by decide) [(2, "Alice"), (9, "Bob")] rfl (by simp)
  exact ⟨h.1, h.2.1⟩

/-- C6: `generate_rotation` fails with a `ValueError` if and only if the
participant list is empty or contains an entry blank after trimming; in
particular `generate([], W, start)` fails with the empty-list message, and no
schedule is produced on that path. -/
theorem C6_validation :
    (∀ (P : List String) (n : Nat) (sd : Option Nat) (now : Nat),
      (∃ msg, generate_rotation P n sd now = .error msg) ↔
        (P = [] ∨ ∃ p ∈ P, strip p = ""))
    ∧ ∀ (n : Nat) (sd : Option Nat) (now : Nat),
      generate_rotation [] n sd now = .error "TO list cannot be empty." := by
  constructor
  · intro P n sd now
    by_cases hP : P = []
    · subst hP
      simp [generate_rotation]
    · have h1 : P.isEmpty = false := by simp [List.isEmpty_iff, hP]
      by_cases hb : ∃ p ∈ P, strip p = ""
      · have h2 : (P.map strip).any (· = "") = true := by
          simp only [List.any_map, List.any_eq_true, Function.comp_apply]
          obtain ⟨p, hp, he⟩ := hb
          exact ⟨p, hp, by simpa using he⟩
        simp [generate_rotation, h1, h2, hP, hb]
      · have h2 : (P.map strip).any (· = "") = false := by
          simp only [List.any_map, List.any_eq_false, Function.comp_apply]
          intro p hp
          simp only [decide_eq_true_eq]
          exact fun he => hb ⟨p, hp, he⟩
        simp [generate_rotation, h1, h2, hP, hb]
  · intro n sd now
    rfl

/-- C7: `generate(["Alice","Bob"], 14, start = 2024-01-01)` (a Monday) yields
exactly the Assignments (2024-01-03, Alice) and (2024-01-10, Bob); the rendered
second record has slot 1 = Bob and slot 2 = Alice.  Day numbers count from
2024-01-01 = 0 (a Monday), so 2024-01-03 = 2 and 2024-01-10 = 9. -/
theorem C7_concrete_example :
    generate_rotation ["Alice", "Bob"] 14 (some 0) 0 = .ok [(2, "Alice"), (9, "Bob")]
    ∧ (print_to_terminal [(2, "Alice"), (9, "Bob")]).getD 1 (0, "", "") =
        (9, "Bob", "Alice") :=
  ⟨rfl, rfl⟩

/-- C8: given the same Schedule, the terminal, text-file and CSV renderers
produce the same ordered sequence of (date, slot 1, slot 2) records, the CSV
renderer differing only by its header row. -/
theorem C8_renderers_agree (tos : List (Nat × String)) :
    print_to_terminal tos = print_to_file tos
    ∧ print_to_terminal tos = (export_to_csv tos).2
    ∧ (export_to_csv tos).1 = ["Date", "TO 1", "TO 2"] := by
  refine ⟨?_, ?_, rfl⟩
  · unfold print_to_terminal print_to_file
    exact ((loop_copies_eq tos _).1).symm
  · unfold print_to_terminal export_to_csv
    exact ((loop_copies_eq tos _).2).symm

/-- C10: on a valid participant list and a window shorter than 7 days,
`generate_rotation` returns normally with at most one Assignment, the schedule
being empty exactly when the first Wednesday at or after `start` falls on or
after `start + window_days`. -/
theorem C10_short_window (P : List String) (num_days start now : Nat)
    (hP : P ≠ []) (hb : ∀ p ∈ P, strip p ≠ "") (hdays : num_days < 7) :
    ∃ sched, generate_rotation P num_days (some start) now = .ok sched
      ∧ sched.length ≤ 1
      ∧ (sched = [] ↔ start + num_days ≤ firstWednesday start) := by
  refine ⟨_, generate_rotation_ok P num_days (some start) now hP hb, ?_, ?_⟩
  · have hge := firstWednesday_ge start
    simp only [List.length_map, List.length_range, Option.getD_some]
    unfold nWeeks
    omega
  · have hge := firstWednesday_ge start
    simp only [List.map_eq_nil_iff, List.range_eq_nil, Option.getD_some]
    unfold nWeeks
    constructor
    · intro h; omega
    · intro h; omega

/-- C10 witness. -/
theorem C10_witness :
    ∃ sched, generate_rotation ["Alice"] 3 (some 0) 0 = .ok sched
      ∧ sched.length ≤ 1
      ∧ (sched = [] ↔ 0 + 3 ≤ firstWednesday 0) :=
  C10_short_window ["Alice"] 3 0 0 (by decide) (by decide) (by decide)

/-- `getLastD` is `getD` at the last index. -/
theorem getLastD_eq_getD {α : Type} (l : List α) (d : α) :
    l.getLastD d = l.getD (l.length - 1) d := by
  rw [List.getLastD_eq_getLast?, List.getLast?_eq_getElem?, List.getD_eq_getElem?_getD]

/-- If `p` divides `m` and `1 ≤ m`, then `m - 1` leaves remainder `p - 1`. -/
theorem mod_pred_of_dvd (p m : Nat) (hp : 0 < p) (hd : p ∣ m) (hm : 1 ≤ m) :
    (m - 1) % p = p - 1 := by
  obtain ⟨k, rfl⟩ := hd
  cases k with
  | zero => simp at hm
  | succ k =>
    have h1 : p * (k + 1) = p * k + p := by ring
    rw [h1, show p * k + p - 1 = p * k + (p - 1) from by omega, Nat.mul_add_mod,
      Nat.mod_eq_of_lt (by omega)]

/-- All participants of a schedule generated from a one-element list are that
participant, trimmed. -/
theorem single_participant_getD (p : String) (num_days start now i : Nat)
    (hp : strip p ≠ "") (sched : List (Nat × String))
    (hgen : generate_rotation [p] num_days (some start) now = .ok sched)
    (hi : i < sched.length) :
    (sched.getD i (0, "")).2 = strip p := by
  rw [sched_getD [p] num_days start now i (by simp)
    (by intro q hq; simp at hq; subst hq; exact hp) sched hgen hi]
  simp [Nat.mod_one]

/-- C4 counterexample: for the single-participant list `["Alice"]` with a
14-day window starting Monday day 0, the schedule has two records and the very
first rendered record's slot 2 is "Alice" (the wrap-around), not the sentinel
"N/A" the claim requires. -/
theorem C4_counterexample :
    generate_rotation ["Alice"] 14 (some 0) 0 = .ok [(2, "Alice"), (9, "Alice")]
    ∧ ((print_to_terminal [(2, "Alice"), (9, "Alice")]).getD 0 (0, "", "")).2.2 = "Alice"
    ∧ ("Alice" : String) ≠ "N/A" :=
  ⟨rfl, rfl, by decide⟩

/-- C4 amended: for every single-participant list, slot 2 of the very first
rendered record is the sentinel "N/A" only when the schedule has exactly one
record; when the schedule has two or more records it is the participant's own
(trimmed) name, and slot 2 of every later record is the participant's own
(trimmed) name. -/
theorem C4_single_participant (p : String) (num_days start now : Nat)
    (hp : strip p ≠ "") (sched : List (Nat × String))
    (hgen : generate_rotation [p] num_days (some start) now = .ok sched) :
    (sched.length = 1 → ((print_to_terminal sched).getD 0 (0, "", "")).2.2 = "N/A")
    ∧ (2 ≤ sched.length → ((print_to_terminal sched).getD 0 (0, "", "")).2.2 = strip p)
    ∧ ∀ i, 1 ≤ i → i < sched.length →
        ((print_to_terminal sched).getD i (0, "", "")).2.2 = strip p := by
  refine ⟨?_, ?_, ?_⟩
  · intro h1
    unfold print_to_terminal
    rw [terminalLoop_getD sched _ 0 (by omega)]
    simp [h1]
  · intro h2
    unfold print_to_terminal
    rw [terminalLoop_getD sched _ 0 (by omega)]
    simp only [if_pos rfl, if_pos (by omega : sched.length > 1)]
    rw [getLastD_eq_getD]
    exact single_participant_getD p num_days start now (sched.length - 1) hp sched hgen
      (by omega)
  · intro i h1 hi
    unfold print_to_terminal
    rw [terminalLoop_getD sched _ i hi]
    simp only [if_neg (by omega : ¬ i = 0)]
    exact single_participant_getD p num_days start now (i - 1) hp sched hgen (by omega)

/-- C4 amendment witness. -/
theorem C4_single_participant_witness :
    ((print_to_terminal [(2, "Alice"), (9, "Alice")]).getD 0 (0, "", "")).2.2 =
      strip "Alice"
    ∧ ((print_to_terminal [(2, "Alice"), (9, "Alice")]).getD 1 (0, "", "")).2.2 =
      strip "Alice" := by
  have h := C4_single_participant "Alice" 14 0 0 (by decide)
    [(2, "Alice"), (9, "Alice")] rfl
  exact ⟨h.2.1 (by decide), h.2.2 1 (by decide) (by decide)⟩

/-- C5: in every rendered schedule, slot 2 of record `i ≥ 1` equals slot 1 of
record `i - 1`; slot 2 of record 0 is the sentinel "N/A" when the schedule has
fewer than 2 records, and otherwise equals the last (trimmed) participant of
`P` (wrap-around) when the schedule spans a full period. -/
theorem C5_slot2_derivation :
    (∀ (sched : List (Nat × String)) (i : Nat), 1 ≤ i → i < sched.length →
      ((print_to_terminal sched).getD i (0, "", "")).2.2 =
        ((print_to_terminal sched).getD (i - 1) (0, "", "")).2.1)
    ∧ (∀ sched : List (Nat × String), sched.length = 1 →
      ((print_to_terminal sched).getD 0 (0, "", "")).2.2 = "N/A")
    ∧ ∀ (P : List String) (num_days start now : Nat), P ≠ [] →
        (∀ p ∈ P, strip p ≠ "") →
        ∀ sched, generate_rotation P num_days (some start) now = .ok sched →
          2 ≤ sched.length → P.length ∣ sched.length →
          ((print_to_terminal sched).getD 0 (0, "", "")).2.2 =
            (P.map strip).getD (P.length - 1) "" := by
  refine ⟨?_, ?_, ?_⟩
  · intro sched i h1 hi
    unfold print_to_terminal
    rw [terminalLoop_getD sched _ i hi, terminalLoop_getD sched _ (i - 1) (by omega)]
    simp [if_neg (by omega : ¬ i = 0)]
  · intro sched h1
    unfold print_to_terminal
    rw [terminalLoop_getD sched _ 0 (by omega)]
    simp [h1]
  · intro P num_days start now hP hb sched hgen h2 hdvd
    unfold print_to_terminal
    rw [terminalLoop_getD sched _ 0 (by omega)]
    simp only [if_pos rfl, if_pos (by omega : sched.length > 1)]
    rw [getLastD_eq_getD,
      sched_getD P num_days start now (sched.length - 1) hP hb sched hgen (by omega),
      mod_pred_of_dvd P.length sched.length (List.length_pos.mpr hP) hdvd (by omega)]
    simp

/-- C5 witness. -/
theorem C5_witness :
    ((print_to_terminal [(2, "Alice"), (9, "Bob")]).getD 1 (0, "", "")).2.2 =
      ((print_to_terminal [(2, "Alice"), (9, "Bob")]).getD 0 (0, "", "")).2.1
    ∧ ((print_to_terminal [(2, "Alice"), (9, "Bob")]).getD 0 (0, "", "")).2.2 =
      (["Alice", "Bob"].map strip).getD (["Alice", "Bob"].length - 1) "" :=
  ⟨C5_slot2_derivation.1 [(2, "Alice"), (9, "Bob")] 1 (by decide) (by decide),
    C5_slot2_derivation.2.2 ["Alice", "Bob"] 14 0 0 (by decide) (by decide)
      [(2, "Alice"), (9, "Bob")] rfl (by decide) (by decide)⟩

/-- If the generator rejects the list, the final stage exits 1 without "Done.". -/
theorem mainGenerate_error (args : Args) (tos : List String) (sd : Option Nat)
    (today : Nat) (msg : String)
    (h : generate_rotation tos args.days sd today = .error msg) :
    mainGenerate args tos sd today = ⟨1, false⟩ := by
  unfold mainGenerate
  rw [h]

/-- If the generator succeeds, the final stage prints "Done." and exits 0. -/
theorem mainGenerate_ok (args : Args) (tos : List String) (sd : Option Nat)
    (today : Nat) (sched : List (Nat × String))
    (h : generate_rotation tos args.days sd today = .ok sched) :
    mainGenerate args tos sd today = ⟨0, true⟩ := by
  unfold mainGenerate
  rw [h]

/-- `mainAfterInput` either exits with status 1 before rendering, or renders
and prints "Done." with status 0. -/
theorem mainAfterInput_cases (args : Args) (tos : List String) (today : Nat) :
    mainAfterInput args tos today = ⟨1, false⟩ ∨
      mainAfterInput args tos today = ⟨0, true⟩ := by
  have hgen : ∀ sd : Option Nat, mainGenerate args tos sd today = ⟨1, false⟩ ∨
      mainGenerate args tos sd today = ⟨0, true⟩ := by
    intro sd
    unfold mainGenerate
    rcases hg : generate_rotation tos args.days sd today with msg | sched
    · exact Or.inl rfl
    · exact Or.inr rfl
  unfold mainAfterInput
  rcases hsd : args.start_date with _ | sd2
  · exact hgen none
  · rcases sd2 with _ | d
    · exact Or.inl rfl
    · exact hgen (some d)

/-- Every run of the process ends in one of three outcomes: exit 1 without
"Done.", exit 0 without "Done." (the empty-file path), or exit 0 with "Done.". -/
theorem main_cases (args : Args) (fileLines : Option (List String)) (today : Nat) :
    main args fileLines today = ⟨1, false⟩ ∨
      main args fileLines today = ⟨0, false⟩ ∨
      main args fileLines today = ⟨0, true⟩ := by
  unfold main
  by_cases he : (args.tos.getD []).isEmpty
  · rcases fileLines with _ | lines
    · exact Or.inl (by simp [he])
    · by_cases h2 : (parse_file_lines lines).isEmpty
      · exact Or.inr (Or.inl (by simp [he, h2]))
      · rcases mainAfterInput_cases args (parse_file_lines lines) today with h | h
        · exact Or.inl (by simp [he, h2, h])
        · exact Or.inr (Or.inr (by simp [he, h2, h]))
  · rcases mainAfterInput_cases args (args.tos.getD []) today with h | h
    · exact Or.inl (by simp [he, h])
    · exact Or.inr (Or.inr (by simp [he, h]))

/-- When input resolution succeeds with `tos`, `main` continues with `tos`. -/
theorem main_resolved (args : Args) (fileLines : Option (List String)) (today : Nat)
    (tos1 : List String) (h : resolvesTo args fileLines tos1) :
    main args fileLines today = mainAfterInput args tos1 today := by
  rcases h with ⟨he, rfl⟩ | ⟨he, lines, rfl, rfl, hne⟩
  · simp [main, he]
  · simp [main, he, hne]

/-- "Done." is reached from `mainAfterInput` only when the start date was not
malformed and the generator succeeded on the resolved list. -/
theorem mainAfterInput_done (args : Args) (tos : List String) (today : Nat)
    (h : (mainAfterInput args tos today).donePrinted = true) :
    args.start_date ≠ some none ∧
      ∃ sched, generate_rotation tos args.days args.start_date.join today =
        .ok sched := by
  unfold mainAfterInput at h
  split at h
  · simp at h
  · rename_i hsd
    unfold mainGenerate at h
    split at h
    · simp at h
    · rename_i sched hg
      refine ⟨by simp [hsd], sched, ?_⟩
      rw [hsd]
      exact hg
  · rename_i d hsd
    unfold mainGenerate at h
    split at h
    · simp at h
    · rename_i sched hg
      refine ⟨by simp [hsd], sched, ?_⟩
      rw [hsd]
      exact hg

/-- C9 counterexample: with no `--tos` argument and a `TO_List.txt` that exists
but yields no names (a `---` separator line and a blank line), the process
terminates with status 0 — not the non-zero status the claim requires — and
without printing "Done.". -/
theorem C9_counterexample :
    main ⟨none, false, false, 60, none⟩ (some ["--- TOs", "   "]) 0 = ⟨0, false⟩ :=
  rfl

/-- C9 amended: the process exits non-zero on a missing input file, on a
malformed `--start-date`, and on a participant list the generator rejects; but
when `TO_List.txt` exists and yields no names it prints a diagnostic and exits
with status 0 without printing "Done."; "Done." is printed exactly on the
successful render path (the resolved list passes the generator with a
well-formed start date), always with status 0. -/
theorem C9_exit_behavior :
    (∀ (args : Args) (today : Nat), (args.tos.getD []).isEmpty = true →
      main args none today = ⟨1, false⟩)
    ∧ (∀ (args : Args) (lines : List String) (today : Nat),
      (args.tos.getD []).isEmpty = true → (parse_file_lines lines).isEmpty = true →
      main args (some lines) today = ⟨0, false⟩)
    ∧ (∀ (args : Args) (fileLines : Option (List String)) (today : Nat),
      args.start_date = some none →
      (main args fileLines today).donePrinted = false ∧
      (¬((args.tos.getD []).isEmpty = true ∧ ∃ lines, fileLines = some lines ∧
          (parse_file_lines lines).isEmpty = true) →
        main args fileLines today = ⟨1, false⟩))
    ∧ (∀ (args : Args) (fileLines : Option (List String)) (today : Nat)
        (tos1 : List String), resolvesTo args fileLines tos1 →
      (∃ msg, generate_rotation tos1 args.days args.start_date.join today = .error msg) →
      main args fileLines today = ⟨1, false⟩)
    ∧ (∀ (args : Args) (fileLines : Option (List String)) (today : Nat)
        (tos1 : List String) (sched : List (Nat × String)),
      resolvesTo args fileLines tos1 → args.start_date ≠ some none →
      generate_rotation tos1 args.days args.start_date.join today = .ok sched →
      main args fileLines today = ⟨0, true⟩)
    ∧ (∀ (args : Args) (fileLines : Option (List String)) (today : Nat),
      (main args fileLines today).donePrinted = true →
      (main args fileLines today).exitCode = 0)
    ∧ ∀ (args : Args) (fileLines : Option (List String)) (today : Nat),
      (main args fileLines today).donePrinted = true →
      args.start_date ≠ some none ∧
        ∃ tos1 sched, resolvesTo args fileLines tos1 ∧
          generate_rotation tos1 args.days args.start_date.join today = .ok sched := by
  refine ⟨?_, ?_, ?_, ?_, ?_, ?_, ?_⟩
  · intro args today he
    simp [main, he]
  · intro args lines today he h2
    simp [main, he, h2]
  · intro args fileLines today hsd
    have hmai : ∀ tos : List String, mainAfterInput args tos today = ⟨1, false⟩ := by
      intro tos
      unfold mainAfterInput
      rw [hsd]
    constructor
    · by_cases he : (args.tos.getD []).isEmpty
      · rcases fileLines with _ | lines
        · simp [main, he]
        · by_cases h2 : (parse_file_lines lines).isEmpty
          · simp [main, he, h2]
          · simp [main, he, h2, hmai]
      · simp [main, he, hmai]
    · intro hnc
      by_cases he : (args.tos.getD []).isEmpty
      · rcases fileLines with _ | lines
        · simp [main, he]
        · by_cases h2 : (parse_file_lines lines).isEmpty
          · exact absurd ⟨he, lines, rfl, h2⟩ hnc
          · simp [main, he, h2, hmai]
      · simp [main, he, hmai]
  · intro args fileLines today tos1 hres herr
    obtain ⟨msg, hmsg⟩ := herr
    have hmai : mainAfterInput args tos1 today = ⟨1, false⟩ := by
      unfold mainAfterInput
      rcases hsd : args.start_date with _ | sd2
      · rw [hsd] at hmsg
        exact mainGenerate_error args tos1 none today msg hmsg
      · rcases sd2 with _ | d
        · rfl
        · rw [hsd] at hmsg
          exact mainGenerate_error args tos1 (some d) today msg hmsg
    rw [main_resolved args fileLines today tos1 hres]
    exact hmai
  · intro args fileLines today tos1 sched hres hsd hok
    have hmai : mainAfterInput args tos1 today = ⟨0, true⟩ := by
      unfold mainAfterInput
      rcases hsdv : args.start_date with _ | sd2
      · rw [hsdv] at hok
        exact mainGenerate_ok args tos1 none today sched hok
      · rcases sd2 with _ | d
        · exact absurd hsdv hsd
        · rw [hsdv] at hok
          exact mainGenerate_ok args tos1 (some d) today sched hok
    rw [main_resolved args fileLines today tos1 hres]
    exact hmai
  · intro args fileLines today
    rcases main_cases args fileLines today with h | h | h <;> rw [h] <;> simp
  · intro args fileLines today hdone
    by_cases he : (args.tos.getD []).isEmpty
    · rcases fileLines with _ | lines
      · rw [show main args none today = ⟨1, false⟩ from by simp [main, he]] at hdone
        simp at hdone
      · by_cases h2 : (parse_file_lines lines).isEmpty
        · rw [show main args (some lines) today = ⟨0, false⟩ from by
            simp [main, he, h2]] at hdone
          simp at hdone
        · have hres : resolvesTo args (some lines) (parse_file_lines lines) :=
            Or.inr ⟨he, lines, rfl, rfl, by simpa using h2⟩
          rw [main_resolved args (some lines) today (parse_file_lines lines)
            hres] at hdone
          obtain ⟨hsd, sched, hok⟩ :=
            mainAfterInput_done args (parse_file_lines lines) today hdone
          exact ⟨hsd, parse_file_lines lines, sched, hres, hok⟩
    · have hres : resolvesTo args fileLines (args.tos.getD []) :=
        Or.inl ⟨by simpa using he, rfl⟩
      rw [main_resolved args fileLines today (args.tos.getD []) hres] at hdone
      obtain ⟨hsd, sched, hok⟩ :=
        mainAfterInput_done args (args.tos.getD []) today hdone
      exact ⟨hsd, args.tos.getD [], sched, hres, hok⟩

/-- C9 amendment witness. -/
theorem C9_exit_behavior_witness :
    main ⟨none, false, false, 60, none⟩ none 0 = ⟨1, false⟩
    ∧ main ⟨some ["Alice"], false, false, 60, some none⟩ none 0 = ⟨1, false⟩
    ∧ main ⟨some [" "], false, false, 60, none⟩ none 0 = ⟨1, false⟩
    ∧ main ⟨some ["Alice"], false, false, 7, none⟩ none 0 = ⟨0, true⟩
    ∧ main ⟨none, false, false, 7, none⟩ (some ["Alice"]) 0 = ⟨0, true⟩ :=
  ⟨C9_exit_behavior.1 ⟨none, false, false, 60, none⟩ 0 (by decide),
    (C9_exit_behavior.2.2.1 ⟨some ["Alice"], false, false, 60, some none⟩ none 0
        rfl).2
      (by intro hc; exact absurd hc.1 (by decide)),
    C9_exit_behavior.2.2.2.1 ⟨some [" "], false, false, 60, none⟩ none 0 [" "]
      (Or.inl ⟨by decide, rfl⟩) ⟨"TO names cannot be empty strings.", rfl⟩,
    C9_exit_behavior.2.2.2.2.1 ⟨some ["Alice"], false, false, 7, none⟩ none 0
      ["Alice"] [(2, "Alice")] (Or.inl ⟨by decide, rfl⟩) (by decide) rfl,
    C9_exit_behavior.2.2.2.2.1 ⟨none, false, false, 7, none⟩ (some ["Alice"]) 0
      (parse_file_lines ["Alice"]) [(2, "Alice")]
      (Or.inr ⟨by decide, ["Alice"], rfl, rfl, by decide⟩) (by decide) rfl⟩

end Roles
